import Mathlib

/-!
Verification of the BI-Backend finance core (finance/models.py,
finance/serializers.py, finance/views.py) against its specification.

Monetary amounts (Django DecimalField with 2 decimal places) are exact
multiples of 0.01 and are embedded as integer counts of cents; dates
(DateField) as integers (day numbers).  Rationals appear only where the code
itself divides (the budget progress percentage).  The relational store
is a record of account rows and transaction rows; each Django `Model.save()`
call becomes an explicit state transformation of that record.
-/

namespace BIBackend

/-- TRANSACTION_TYPES choices of the Transaction model (finance/models.py). -/
inductive TxnType where
  | INCOME
  | EXPENSE
  | TRANSFER
deriving DecidableEq, BEq, Repr

/-- A persisted Account row (finance/models.py, class Account): primary key plus
the cached `balance` column.  The remaining columns (name, account_type,
currency, description, is_active, timestamps) play no role in the balance
claims and are omitted from the ledger state. -/
structure Account where
  id : Nat
  balance : ℤ
deriving DecidableEq, Repr

/-- A persisted Transaction row (finance/models.py, class Transaction).
`category` is a nullable foreign key (SET_NULL), hence an optional key.
Free-text columns and timestamps are omitted. -/
structure Transaction where
  id : Nat
  accountId : Nat
  category : Option Nat
  transaction_type : TxnType
  amount : ℤ
  date : ℤ
deriving DecidableEq, Repr

/-- The relational store: the account table and the transaction table. -/
structure DB where
  accounts : List Account
  transactions : List Transaction
deriving DecidableEq, Repr

/-- Reading the `balance` column of the account row with primary key `aid`
(a fresh `Account.objects.get`); 0 when no such row exists. -/
def DB.getBalance (db : DB) (aid : Nat) : ℤ :=
  ((db.accounts.find? (fun a => a.id == aid)).map Account.balance).getD 0

/-- `account.save()`: write the instance's fields back to the row with the
instance's primary key.  Only the balance column is modelled. -/
def DB.setBalance (db : DB) (aid : Nat) (b : ℤ) : DB :=
  { db with accounts :=
      db.accounts.map (fun a => if a.id == aid then { a with balance := b } else a) }

/-- An in-memory Django model instance of Transaction, i.e. `self` as it enters
`Transaction.save` / `Transaction.delete`.  `pk = none` for an instance not yet
persisted (INSERT path).

`accountCache` models the forward foreign-key descriptor `self.account`:
`some b` means a related Account instance is already attached in memory and its
`balance` attribute holds `b` (this is how every instance loaded through
`TransactionViewSet` arrives, since its queryset uses
`select_related('account')`, and how a DRF-validated `account` field arrives,
fetched before `save` runs); `none` means the attribute is not yet loaded, so
the first access inside the method reads the then-current database row. -/
structure TxnInstance where
  pk : Option Nat
  accountId : Nat
  category : Option Nat
  transaction_type : TxnType
  amount : ℤ
  date : ℤ
  accountCache : Option ℤ
deriving DecidableEq, Repr

/-- The row written for an instance by the ORM `super().save()`. -/
def TxnInstance.toRow (self : TxnInstance) (key : Nat) : Transaction :=
  { id := key, accountId := self.accountId, category := self.category,
    transaction_type := self.transaction_type, amount := self.amount,
    date := self.date }

/-- `Transaction.save` (finance/models.py lines 144-164).

* `is_new` is `self.pk is None`; `freshPk` is the key the store assigns on
  INSERT.
* Update path: `Transaction.objects.get(pk=self.pk)` fetches the old row
  (`none` models the DoesNotExist exception when the row is missing); the old
  effect is reverted on `old_transaction.account`, an account instance lazily
  fetched fresh from the store, and that account is saved.
* Then the new effect is applied through `self.account` — the cached in-memory
  instance when `accountCache = some b`, otherwise a lazy fetch that happens
  only now, after the reversal write — and `self.account.save()` writes that
  instance's balance back wholesale.
* Finally `super().save()` inserts or updates the transaction row. -/
def Transaction.save (db : DB) (self : TxnInstance) (freshPk : Nat) : Option DB :=
  match self.pk with
  | none =>
      let selfBal := self.accountCache.getD (db.getBalance self.accountId)
      let selfBal2 :=
        match self.transaction_type with
        | TxnType.INCOME => selfBal + self.amount
        | TxnType.EXPENSE => selfBal - self.amount
        | TxnType.TRANSFER => selfBal
      let db2 := db.setBalance self.accountId selfBal2
      some { db2 with transactions := self.toRow freshPk :: db2.transactions }
  | some p =>
      match db.transactions.find? (fun t => t.id == p) with
      | none => none
      | some old =>
          let oldBal := db.getBalance old.accountId
          let oldBal2 :=
            match old.transaction_type with
            | TxnType.INCOME => oldBal - old.amount
            | TxnType.EXPENSE => oldBal + old.amount
            | TxnType.TRANSFER => oldBal
          let db1 := db.setBalance old.accountId oldBal2
          let selfBal := self.accountCache.getD (db1.getBalance self.accountId)
          let selfBal2 :=
            match self.transaction_type with
            | TxnType.INCOME => selfBal + self.amount
            | TxnType.EXPENSE => selfBal - self.amount
            | TxnType.TRANSFER => selfBal
          let db2 := db1.setBalance self.accountId selfBal2
          some { db2 with transactions :=
              db2.transactions.map (fun t => if t.id == p then self.toRow p else t) }

/-- `Transaction.delete` (finance/models.py lines 166-173): revert the effect on
`self.account`, save that account, then delete the row (`none` models the
error Django raises when deleting an instance without a primary key). -/
def Transaction.delete (db : DB) (self : TxnInstance) : Option DB :=
  match self.pk with
  | none => none
  | some p =>
      let selfBal := self.accountCache.getD (db.getBalance self.accountId)
      let selfBal2 :=
        match self.transaction_type with
        | TxnType.INCOME => selfBal - self.amount
        | TxnType.EXPENSE => selfBal + self.amount
        | TxnType.TRANSFER => selfBal
      let db1 := db.setBalance self.accountId selfBal2
      some { db1 with transactions := db1.transactions.filter (fun t => !(t.id == p)) }

/-- Loading a Transaction through `TransactionViewSet.get_object` (views.py
line 58: the queryset uses `select_related('account', 'category')`, so the
related Account row is fetched in the same query and the `account` descriptor
is cached with the balance current at load time). -/
def loadInstance (db : DB) (p : Nat) : Option TxnInstance :=
  (db.transactions.find? (fun t => t.id == p)).map (fun t =>
    { pk := some t.id, accountId := t.accountId, category := t.category,
      transaction_type := t.transaction_type, amount := t.amount, date := t.date,
      accountCache := some (db.getBalance t.accountId) })

/-- The signed contribution of a transaction type to its account balance:
+amount for income, -amount for expense, 0 for transfer. -/
def TxnType.signedEffect : TxnType → ℤ → ℤ
  | TxnType.INCOME, a => a
  | TxnType.EXPENSE, a => -a
  | TxnType.TRANSFER, _ => 0

/-- The signed sum of a set of transaction rows. -/
def signedSum (ts : List Transaction) : ℤ :=
  (ts.map (fun t => t.transaction_type.signedEffect t.amount)).sum

/-! ### The update scenario from spec property 8.2

Account id 1 starts at balance 1000.00 with no transactions.  An INCOME
transaction of 500.00 is created, then reloaded through the view layer and
saved with its amount edited to 300.00. -/

/-- Initial store: one account, balance 1000.00 (100000 cents), no
transactions. -/
def scenarioDb0 : DB :=
  { accounts := [{ id := 1, balance := 100000 }], transactions := [] }

/-- The new income transaction of 500.00, with the validated account instance
attached (DRF fetches the account row during validation, so its balance is the
value current at request time, 1000.00). -/
def scenarioCreate : TxnInstance :=
  { pk := none, accountId := 1, category := none,
    transaction_type := TxnType.INCOME, amount := 50000, date := 0,
    accountCache := some 100000 }

/-- Store after the create. -/
def scenarioDb1 : Option DB := Transaction.save scenarioDb0 scenarioCreate 1

/-- Store after the edit: reload transaction 1 through the view layer and save
it with amount 300.00. -/
def scenarioDb2 : Option DB :=
  scenarioDb1.bind (fun db =>
    (loadInstance db 1).bind (fun i => Transaction.save db { i with amount := 30000 } 1))

/-! ### Budget evaluator (finance/models.py lines 193-205, serializers.py 62-72) -/

/-- A Budget row (finance/models.py, class Budget): owning category key,
amount, and the date window.  Notes, active flag and timestamps are omitted. -/
structure Budget where
  category : Nat
  amount : ℤ
  start_date : ℤ
  end_date : ℤ
deriving DecidableEq, Repr

/-- The queryset built by `Budget.get_spent_amount`:
`Transaction.objects.filter(category=self.category, transaction_type='EXPENSE',
date__gte=self.start_date, date__lte=self.end_date)`. -/
def Budget.spentTransactions (ts : List Transaction) (b : Budget) : List Transaction :=
  ts.filter (fun t =>
    decide (t.category = some b.category ∧ t.transaction_type = TxnType.EXPENSE ∧
      b.start_date ≤ t.date ∧ t.date ≤ b.end_date))

/-- `Budget.get_spent_amount`: `sum(t.amount for t in transactions)`. -/
def Budget.get_spent_amount (ts : List Transaction) (b : Budget) : ℤ :=
  ((Budget.spentTransactions ts b).map Transaction.amount).sum

/-- `Budget.get_remaining_amount`: `self.amount - self.get_spent_amount()`. -/
def Budget.get_remaining_amount (ts : List Transaction) (b : Budget) : ℤ :=
  b.amount - Budget.get_spent_amount ts b

/-- Rounding to the nearest integer with ties to the even integer
(ROUND_HALF_EVEN), the mode Python `round` applies to Decimal values. -/
def roundHalfEven (q : ℚ) : ℤ :=
  if q - ⌊q⌋ < 1/2 then ⌊q⌋
  else if 1/2 < q - ⌊q⌋ then ⌊q⌋ + 1
  else if ⌊q⌋ % 2 = 0 then ⌊q⌋ else ⌊q⌋ + 1

/-- Python `round(x, 2)` on a Decimal value. -/
def round2 (x : ℚ) : ℚ := (roundHalfEven (x * 100) : ℚ) / 100

/-- `BudgetSerializer.get_progress_percentage` (serializers.py lines 68-72):
`round((spent / obj.amount) * 100, 2)` when `obj.amount > 0`, else `0`. -/
def BudgetSerializer.get_progress_percentage (ts : List Transaction) (b : Budget) : ℚ :=
  let spent := Budget.get_spent_amount ts b
  if 0 < b.amount then round2 ((spent : ℚ) / (b.amount : ℚ) * 100) else 0

/-! ### Transaction summary endpoint (finance/views.py lines 81-97) -/

/-- The payload shaped by TransactionSummarySerializer (serializers.py
lines 127-132). -/
structure SummaryData where
  total_income : ℤ
  total_expenses : ℤ
  net_balance : ℤ
  transaction_count : Nat
deriving DecidableEq, Repr

/-- `queryset.aggregate(total=Sum('amount'))['total']`: SQL SUM, which is NULL
on an empty set. -/
def aggregateSum (ts : List Transaction) : Option ℤ :=
  if ts.isEmpty then none else some ((ts.map Transaction.amount).sum)

/-- Python `x or 0`, applied to the aggregate: None becomes 0 (a falsy
Decimal zero also becomes the int 0, the same rational value). -/
def orZero (x : Option ℤ) : ℤ := x.getD 0

/-- `TransactionViewSet.summary` over the filtered queryset `ts`. -/
def TransactionViewSet.summary (ts : List Transaction) : SummaryData :=
  let income := orZero (aggregateSum (ts.filter (fun t => t.transaction_type == TxnType.INCOME)))
  let expenses := orZero (aggregateSum (ts.filter (fun t => t.transaction_type == TxnType.EXPENSE)))
  { total_income := income, total_expenses := expenses,
    net_balance := income - expenses, transaction_count := ts.length }

/-- Following the words of the claim, not the code: the number of rows whose
amounts actually enter total_income or total_expenses, i.e. the INCOME and
EXPENSE rows of the filtered set.  Compared with the transaction_count the
endpoint reports. -/
def rowsSummed (ts : List Transaction) : Nat :=
  (ts.filter (fun t =>
    t.transaction_type == TxnType.INCOME || t.transaction_type == TxnType.EXPENSE)).length

/-- A TRANSFER row: in the summary's filtered set it is counted by
`queryset.count()` but contributes to neither total. -/
def transferRow : Transaction :=
  { id := 7, accountId := 1, category := none,
    transaction_type := TxnType.TRANSFER, amount := 4000, date := 0 }

/-! ### Serializer validation and field writability (finance/serializers.py) -/

/-- `TransactionSerializer.validate_amount` (serializers.py lines 42-46):
raises a ValidationError unless the amount is strictly positive. -/
def validate_amount (value : ℤ) : Except String ℤ :=
  if value ≤ 0 then Except.error "Amount must be greater than zero." else Except.ok value

/-- A POST to the transactions endpoint: DRF runs the serializer's field
validators before `serializer.save()`, so `Transaction.save` (and with it any
balance write) is reached only when validation succeeds. -/
def api_create_transaction (db : DB) (self : TxnInstance) (freshPk : Nat) :
    Except String DB :=
  match validate_amount self.amount with
  | Except.error e => Except.error e
  | Except.ok _ =>
      match Transaction.save db { self with pk := none } freshPk with
      | some db2 => Except.ok db2
      | none => Except.error "DoesNotExist"

/-- The store the request leaves behind: a rejected request never reaches the
save path, so the store is untouched. -/
def api_create_resulting_db (db : DB) (self : TxnInstance) (freshPk : Nat) : DB :=
  match api_create_transaction db self freshPk with
  | Except.ok db2 => db2
  | Except.error _ => db

/-- `AccountSerializer.Meta.fields` (serializers.py lines 10-11). -/
def AccountSerializer.fieldNames : List String :=
  ["id", "name", "account_type", "balance", "currency", "description",
   "is_active", "transaction_count", "created_at", "updated_at"]

/-- `AccountSerializer.Meta.read_only_fields` (serializers.py line 12). -/
def AccountSerializer.read_only_fields : List String :=
  ["balance", "created_at", "updated_at"]

/-- Fields DRF makes read-only by construction rather than by declaration: the
primary key, and `transaction_count`, a SerializerMethodField. -/
def AccountSerializer.structurally_read_only : List String :=
  ["id", "transaction_count"]

/-- The fields a request payload can write through AccountSerializer. -/
def AccountSerializer.writable : List String :=
  AccountSerializer.fieldNames.filter (fun f =>
    !(AccountSerializer.read_only_fields.contains f) &&
    !(AccountSerializer.structurally_read_only.contains f))

/-- The Account columns of behavioral interest to the serializer claims, with
their model defaults (models.py lines 74-79; `balance` defaults to 0.00). -/
structure AccountRecord where
  name : String
  account_type : String
  balance : ℤ
  is_active : Bool
deriving DecidableEq, Repr

/-- A request payload for the accounts endpoint; any field may be supplied,
including a `balance` value. -/
structure AccountPayload where
  name : Option String
  account_type : Option String
  balance : Option ℤ
  is_active : Option Bool
deriving DecidableEq, Repr

/-- Serializer create: writable fields are taken from the payload (falling
back to the model defaults); a payload value for a non-writable field is
dropped during validation and the model default is used. -/
def AccountSerializer.create (p : AccountPayload) : AccountRecord :=
  { name := if AccountSerializer.writable.contains "name" then p.name.getD "" else "",
    account_type :=
      if AccountSerializer.writable.contains "account_type" then
        p.account_type.getD "CHECKING" else "CHECKING",
    balance := if AccountSerializer.writable.contains "balance" then p.balance.getD 0 else 0,
    is_active :=
      if AccountSerializer.writable.contains "is_active" then p.is_active.getD true else true }

/-- Serializer update: writable fields present in the payload overwrite the
instance; everything else keeps the stored value. -/
def AccountSerializer.update (a : AccountRecord) (p : AccountPayload) : AccountRecord :=
  { name := if AccountSerializer.writable.contains "name" then p.name.getD a.name else a.name,
    account_type :=
      if AccountSerializer.writable.contains "account_type" then
        p.account_type.getD a.account_type else a.account_type,
    balance :=
      if AccountSerializer.writable.contains "balance" then p.balance.getD a.balance
      else a.balance,
    is_active :=
      if AccountSerializer.writable.contains "is_active" then p.is_active.getD a.is_active
      else a.is_active }

/-! ### Concrete inputs used by witnesses and counterexamples -/

/-- The same edit as in `scenarioDb2`, but performed on an instance whose
`account` attribute has not been loaded yet, so the lazy fetch happens after
the reversal write. -/
def scenarioUpdateLazy : TxnInstance :=
  { pk := some 1, accountId := 1, category := none,
    transaction_type := TxnType.INCOME, amount := 30000, date := 0,
    accountCache := none }

/-- Store after the edit performed through an instance with an unloaded
account attribute. -/
def scenarioDb2Lazy : Option DB :=
  scenarioDb1.bind (fun db => Transaction.save db scenarioUpdateLazy 1)

/-- Store for the delete scenario: account 1 at 100.00, holding one EXPENSE
transaction of 75.50. -/
def delDb : DB :=
  { accounts := [{ id := 1, balance := 10000 }],
    transactions :=
      [{ id := 3, accountId := 1, category := some 2,
         transaction_type := TxnType.EXPENSE, amount := 7550, date := 5 }] }

/-- The expense transaction of `delDb` loaded through the view layer. -/
def delInst : TxnInstance :=
  { pk := some 3, accountId := 1, category := some 2,
    transaction_type := TxnType.EXPENSE, amount := 7550, date := 5,
    accountCache := some 10000 }

/-- Store for the transfer scenario: account 1 at 50.00, holding one TRANSFER
transaction of 40.00. -/
def trDb : DB :=
  { accounts := [{ id := 1, balance := 5000 }],
    transactions :=
      [{ id := 4, accountId := 1, category := none,
         transaction_type := TxnType.TRANSFER, amount := 4000, date := 0 }] }

/-- A new TRANSFER transaction of 40.00 about to be created on account 1. -/
def trNew : TxnInstance :=
  { pk := none, accountId := 1, category := none,
    transaction_type := TxnType.TRANSFER, amount := 4000, date := 0,
    accountCache := some 5000 }

/-- The TRANSFER transaction of `trDb` loaded through the view layer. -/
def trDel : TxnInstance :=
  { pk := some 4, accountId := 1, category := none,
    transaction_type := TxnType.TRANSFER, amount := 4000, date := 0,
    accountCache := some 5000 }

/-- The budget of spec property 8.4: amount 500.00 over the window [0, 30]
for category 2. -/
def budgetB : Budget :=
  { category := 2, amount := 50000, start_date := 0, end_date := 30 }

/-- Expense of 100.00 inside the window of `budgetB`. -/
def budgetT1 : Transaction :=
  { id := 1, accountId := 1, category := some 2,
    transaction_type := TxnType.EXPENSE, amount := 10000, date := 5 }

/-- Expense of 50.00 dated exactly on the end_date of `budgetB`. -/
def budgetT2 : Transaction :=
  { id := 2, accountId := 1, category := some 2,
    transaction_type := TxnType.EXPENSE, amount := 5000, date := 30 }

/-- Expense of 25.00 dated end_date + 1 day. -/
def budgetT3 : Transaction :=
  { id := 3, accountId := 1, category := some 2,
    transaction_type := TxnType.EXPENSE, amount := 2500, date := 31 }

/-- The transaction table for the budget scenario. -/
def budgetTs : List Transaction := [budgetT1, budgetT2, budgetT3]

/-- A budget of 10.00 whose category accumulated 20.00 of expenses: the
remaining amount is negative. -/
def negB : Budget :=
  { category := 3, amount := 1000, start_date := 0, end_date := 10 }

/-- The over-budget expense behind `negB`. -/
def negTs : List Transaction :=
  [{ id := 9, accountId := 1, category := some 3,
     transaction_type := TxnType.EXPENSE, amount := 2000, date := 4 }]

/-- A transaction submitted with amount 0. -/
def zeroInst : TxnInstance :=
  { pk := none, accountId := 1, category := none,
    transaction_type := TxnType.INCOME, amount := 0, date := 0,
    accountCache := none }

/-! ### Lemmas about the store -/

/-- Writing balance `b` for account key `aid` and reading that key back yields
`b`, provided some row has key `aid`. -/
theorem find_set_balance (l : List Account) (aid : Nat) (b : ℤ)
    (h : ∃ a ∈ l, a.id = aid) :
    (((l.map (fun a => if a.id == aid then { a with balance := b } else a)).find?
        (fun a => a.id == aid)).map Account.balance).getD 0 = b := by
  induction l with
  | nil => simp at h
  | cons x xs ih =>
      by_cases hx : x.id = aid
      · simp [List.find?, hx]
      · rcases h with ⟨a, ha, hid⟩
        rcases List.mem_cons.mp ha with rfl | ha2
        · exact absurd hid hx
        · have hxb : (x.id == aid) = false := by simp [hx]
          have hhead : (if x.id == aid then { x with balance := b } else x) = x := by
            simp [hxb]
          rw [List.map_cons, hhead, List.find?_cons_of_neg _ (by simp [hx])]
          exact ih ⟨a, ha2, hid⟩

/-- `getBalance` after `setBalance` on the same key. -/
theorem getBalance_setBalance_self (db : DB) (aid : Nat) (b : ℤ)
    (h : ∃ a ∈ db.accounts, a.id = aid) :
    (db.setBalance aid b).getBalance aid = b :=
  find_set_balance db.accounts aid b h

/-- The SQL aggregate followed by the Python `or 0` is the plain sum. -/
theorem orZero_aggregateSum (ts : List Transaction) :
    orZero (aggregateSum ts) = (ts.map Transaction.amount).sum := by
  cases ts <;> simp [orZero, aggregateSum]

/-- Replacing the transaction table leaves every account balance unchanged. -/
theorem getBalance_mk_accounts (X : DB) (Y : List Transaction) (aid : Nat) :
    (DB.mk X.accounts Y).getBalance aid = X.getBalance aid := rfl

/-! ### Claims -/

/-- Claim C1 fails on the code.  Starting from account 1 at balance 1000.00
with no transactions, creating an INCOME transaction of 500.00 through
`Transaction.save` and then saving the reloaded instance with its amount
edited to 300.00 leaves a stored balance of 1800.00, while the initial
balance plus the signed sum of the current transactions is 1300.00.  The
update path of `Transaction.save` reverses the old effect on a freshly
fetched account row and persists it, but `self.account.save()` then writes
the balance cached on the in-memory instance — loaded before the reversal —
plus the new amount, overwriting the reversal; so the balance invariant is
violated after an update. -/
theorem claim_balance_invariant_violated :
    (scenarioDb2.map (fun db => (db.getBalance 1, (100000 : ℤ) + signedSum db.transactions)))
      = some (180000, 130000) ∧ (180000 : ℤ) ≠ 130000 := by
  decide

/-- Claim C2 fails on the code.  Creating an INCOME transaction of 500.00 on
an account at 1000.00 does yield 1500.00, but saving the reloaded transaction
with its amount edited to 300.00 yields a stored balance of 1800.00, not the
claimed 1300.00: the persisted reversal of the old 500.00 effect is
overwritten when the new effect is applied to the stale balance cached on
`self.account`. -/
theorem claim_update_reversal_violated :
    (scenarioDb1.map (fun db => db.getBalance 1)) = some 150000 ∧
    (scenarioDb2.map (fun db => db.getBalance 1)) = some 180000 ∧
    (180000 : ℤ) ≠ 130000 := by
  decide

/-- The same edit applied to an instance whose `account` attribute is loaded
lazily, only after the reversal write, does produce the intended 1300.00 —
the reversal logic itself is right; the bug is the stale cached instance. -/
theorem update_through_unloaded_account_is_correct :
    (scenarioDb2Lazy.map (fun db => db.getBalance 1)) = some 130000 := by
  decide

/-- Claim C3: `Transaction.delete` reverses the transaction's signed effect
on its account and removes exactly the transaction's row, for any instance
whose cached account balance agrees with the stored row (as it does when the
instance was loaded through the view layer) or whose account is loaded
lazily: the resulting balance is the old balance minus the signed effect, so
deleting an INCOME transaction decreases the balance by its amount and
deleting an EXPENSE transaction increases it by its amount. -/
theorem claim_delete_reverses_effect (db : DB) (self : TxnInstance) (p : Nat)
    (hpk : self.pk = some p)
    (hacct : ∃ a ∈ db.accounts, a.id = self.accountId)
    (hcache : self.accountCache = none ∨
      self.accountCache = some (db.getBalance self.accountId)) :
    (Transaction.delete db self).map (fun db2 => db2.getBalance self.accountId) =
      some (db.getBalance self.accountId -
        self.transaction_type.signedEffect self.amount) ∧
    (Transaction.delete db self).map DB.transactions =
      some (db.transactions.filter (fun t => !(t.id == p))) := by
  have hload : self.accountCache.getD (db.getBalance self.accountId)
      = db.getBalance self.accountId := by
    rcases hcache with h | h <;> simp [h]
  constructor
  · simp only [Transaction.delete, hpk, Option.map_some', Option.some.injEq]
    rw [getBalance_mk_accounts]
    rw [getBalance_setBalance_self db self.accountId _ hacct]
    cases self.transaction_type <;> simp [TxnType.signedEffect, hload]
  · simp only [Transaction.delete, hpk, Option.map_some', Option.some.injEq]
    rfl

/-- Witness for C3: deleting the 75.50 EXPENSE transaction of `delDb`. -/
theorem claim_delete_reverses_effect_witness :
    (Transaction.delete delDb delInst).map (fun db2 => db2.getBalance delInst.accountId) =
      some (delDb.getBalance delInst.accountId -
        delInst.transaction_type.signedEffect delInst.amount) ∧
    (Transaction.delete delDb delInst).map DB.transactions =
      some (delDb.transactions.filter (fun t => !(t.id == 3))) :=
  claim_delete_reverses_effect delDb delInst 3 rfl (by decide) (Or.inr (by decide))

/-- Deleting the EXPENSE transaction of 75.50 from the account at 100.00
leaves the stored balance at 175.50: the balance is restored by +75.50. -/
theorem delete_expense_restores_7550 :
    (Transaction.delete delDb delInst).map (fun db2 => db2.getBalance 1) = some 17550 := by
  decide

/-- Claim C8: a TRANSFER transaction hits neither branch of the balance
update, so creating it via `Transaction.save` and deleting it via
`Transaction.delete` leave the owning account's stored balance unchanged
(for an instance whose cached account balance agrees with the stored row, or
is loaded lazily). -/
theorem claim_transfer_noop (db : DB) (self : TxnInstance)
    (hty : self.transaction_type = TxnType.TRANSFER)
    (hacct : ∃ a ∈ db.accounts, a.id = self.accountId)
    (hcache : self.accountCache = none ∨
      self.accountCache = some (db.getBalance self.accountId)) :
    (self.pk = none → ∀ freshPk,
      (Transaction.save db self freshPk).map (fun db2 => db2.getBalance self.accountId) =
        some (db.getBalance self.accountId)) ∧
    (∀ p, self.pk = some p →
      (Transaction.delete db self).map (fun db2 => db2.getBalance self.accountId) =
        some (db.getBalance self.accountId)) := by
  have hload : self.accountCache.getD (db.getBalance self.accountId)
      = db.getBalance self.accountId := by
    rcases hcache with h | h <;> simp [h]
  constructor
  · intro hpk freshPk
    simp only [Transaction.save, hpk, hty, Option.map_some', Option.some.injEq]
    rw [getBalance_mk_accounts, getBalance_setBalance_self db self.accountId _ hacct]
    exact hload
  · intro p hpk
    simp only [Transaction.delete, hpk, hty, Option.map_some', Option.some.injEq]
    rw [getBalance_mk_accounts, getBalance_setBalance_self db self.accountId _ hacct]
    exact hload

/-- Witness for C8: creating a 40.00 TRANSFER on `trDb` and deleting the
stored one both leave account 1 at its 50.00 balance. -/
theorem claim_transfer_noop_witness :
    (Transaction.save trDb trNew 9).map (fun db2 => db2.getBalance trNew.accountId) =
      some (trDb.getBalance trNew.accountId) ∧
    (Transaction.delete trDb trDel).map (fun db2 => db2.getBalance trDel.accountId) =
      some (trDb.getBalance trDel.accountId) :=
  ⟨(claim_transfer_noop trDb trNew rfl (by decide) (Or.inr (by decide))).1 rfl 9,
   (claim_transfer_noop trDb trDel rfl (by decide) (Or.inr (by decide))).2 4 rfl⟩

/-- Claim C4: `Budget.get_spent_amount` sums the amounts of exactly the
transactions whose category is the budget's category, whose type is EXPENSE,
and whose date lies in the inclusive window start_date ≤ date ≤ end_date; a
qualifying transaction dated exactly on end_date is included, one dated
end_date plus one day is excluded. -/
theorem claim_spent_window_inclusive (ts : List Transaction) (b : Budget) :
    Budget.get_spent_amount ts b =
      ((Budget.spentTransactions ts b).map Transaction.amount).sum ∧
    (∀ t, t ∈ Budget.spentTransactions ts b ↔
      t ∈ ts ∧ t.category = some b.category ∧ t.transaction_type = TxnType.EXPENSE ∧
        b.start_date ≤ t.date ∧ t.date ≤ b.end_date) ∧
    (∀ t, t ∈ ts → t.category = some b.category → t.transaction_type = TxnType.EXPENSE →
      b.start_date ≤ b.end_date →
      (t.date = b.end_date → t ∈ Budget.spentTransactions ts b) ∧
      (t.date = b.end_date + 1 → t ∉ Budget.spentTransactions ts b)) := by
  have hmem : ∀ t, t ∈ Budget.spentTransactions ts b ↔
      t ∈ ts ∧ t.category = some b.category ∧ t.transaction_type = TxnType.EXPENSE ∧
        b.start_date ≤ t.date ∧ t.date ≤ b.end_date := by
    intro t
    simp [Budget.spentTransactions, List.mem_filter]
  refine ⟨rfl, hmem, ?_⟩
  intro t ht hcat hty hse
  constructor
  · intro hdate
    exact (hmem t).mpr ⟨ht, hcat, hty, by omega, by omega⟩
  · intro hdate hin
    have hle := ((hmem t).mp hin).2.2.2.2
    omega

/-- Witness for C4: in the window [0, 30] of `budgetB`, the expense dated 30
is counted and the expense dated 31 is not. -/
theorem claim_spent_window_inclusive_witness :
    budgetT2 ∈ Budget.spentTransactions budgetTs budgetB ∧
    budgetT3 ∉ Budget.spentTransactions budgetTs budgetB := by
  have h := (claim_spent_window_inclusive budgetTs budgetB).2.2
  exact ⟨(h budgetT2 (by decide) (by decide) (by decide) (by decide)).1 (by decide),
         (h budgetT3 (by decide) (by decide) (by decide) (by decide)).2 (by decide)⟩

/-- Claim C5: the serializer's progress percentage is
round(spent / amount * 100, 2) whenever the budget amount is positive and 0
when the amount is 0 (no division by zero); the remaining amount is
amount − spent, and negative remaining amounts are representable. -/
theorem claim_budget_percentages (ts : List Transaction) (b : Budget) :
    (0 < b.amount →
      BudgetSerializer.get_progress_percentage ts b =
        round2 ((Budget.get_spent_amount ts b : ℚ) / (b.amount : ℚ) * 100)) ∧
    (b.amount = 0 → BudgetSerializer.get_progress_percentage ts b = 0) ∧
    Budget.get_remaining_amount ts b = b.amount - Budget.get_spent_amount ts b ∧
    ∃ ts2 b2, Budget.get_remaining_amount ts2 b2 < 0 := by
  refine ⟨fun h => ?_, fun h => ?_, rfl, ⟨negTs, negB, by decide⟩⟩
  · simp [BudgetSerializer.get_progress_percentage, h]
  · simp [BudgetSerializer.get_progress_percentage, h]

/-- Witness for C5 at the budget of spec property 8.4. -/
theorem claim_budget_percentages_witness :
    (0 : ℤ) < budgetB.amount ∧
    BudgetSerializer.get_progress_percentage budgetTs budgetB =
      round2 ((Budget.get_spent_amount budgetTs budgetB : ℚ) / (budgetB.amount : ℚ) * 100) :=
  ⟨by decide, (claim_budget_percentages budgetTs budgetB).1 (by decide)⟩

/-- Spec property 8.4 end to end: expenses of 100.00 and 50.00 against the
500.00 budget give a progress percentage of exactly 30. -/
theorem budget_progress_is_30_percent :
    BudgetSerializer.get_progress_percentage budgetTs budgetB = 30 := by
  simp only [BudgetSerializer.get_progress_percentage,
    show Budget.get_spent_amount budgetTs budgetB = 15000 from by decide,
    show budgetB.amount = 50000 from by decide]
  rw [if_pos (by norm_num : (0 : ℤ) < 50000)]
  have hq : ((15000 : ℤ) : ℚ) / ((50000 : ℤ) : ℚ) * 100 = 30 := by norm_num
  rw [hq]
  have hf : ⌊(30 : ℚ) * 100⌋ = 3000 := by norm_num
  rw [round2, roundHalfEven, hf]
  norm_num

/-- Counterexample to claim C6 as stated: on a filtered set holding one
TRANSFER row the endpoint reports transaction_count 1, while the number of
rows whose amounts were summed into total_income or total_expenses is 0. -/
theorem claim_summary_count_counterexample :
    (TransactionViewSet.summary [transferRow]).transaction_count = 1 ∧
    rowsSummed [transferRow] = 0 ∧
    (TransactionViewSet.summary [transferRow]).transaction_count ≠ rowsSummed [transferRow] := by
  decide

/-- Claim C6, amended: net_balance equals total_income minus total_expenses,
total_income and total_expenses are the sums over the INCOME and EXPENSE rows
of the filtered set, and transaction_count is the number of rows in the whole
filtered set — including TRANSFER rows that contribute to neither total. -/
theorem claim_summary_additivity_amended (ts : List Transaction) :
    (TransactionViewSet.summary ts).net_balance =
      (TransactionViewSet.summary ts).total_income -
        (TransactionViewSet.summary ts).total_expenses ∧
    (TransactionViewSet.summary ts).transaction_count = ts.length ∧
    (TransactionViewSet.summary ts).total_income =
      ((ts.filter (fun t => t.transaction_type == TxnType.INCOME)).map Transaction.amount).sum ∧
    (TransactionViewSet.summary ts).total_expenses =
      ((ts.filter (fun t => t.transaction_type == TxnType.EXPENSE)).map Transaction.amount).sum := by
  refine ⟨rfl, rfl, ?_, ?_⟩ <;> simp [TransactionViewSet.summary, orZero_aggregateSum]

/-- Claim C7: a transaction with amount 0 or negative is rejected by
`validate_amount` before `Transaction.save` runs, with the structured error
message; the store the request leaves behind is the unchanged input store, so
no balance moves and no row is created. -/
theorem claim_validation_rejects_nonpositive (db : DB) (self : TxnInstance) (freshPk : Nat)
    (h : self.amount ≤ 0) :
    api_create_transaction db self freshPk =
      Except.error "Amount must be greater than zero." ∧
    api_create_resulting_db db self freshPk = db := by
  have hv : validate_amount self.amount =
      Except.error "Amount must be greater than zero." := by
    simp [validate_amount, h]
  constructor
  · simp [api_create_transaction, hv]
  · simp [api_create_resulting_db, api_create_transaction, hv]

/-- Witness for C7: posting a zero-amount transaction against `scenarioDb0`. -/
theorem claim_validation_rejects_nonpositive_witness :
    zeroInst.amount ≤ 0 ∧
    api_create_transaction scenarioDb0 zeroInst 1 =
      Except.error "Amount must be greater than zero." ∧
    api_create_resulting_db scenarioDb0 zeroInst 1 = scenarioDb0 :=
  ⟨by decide, (claim_validation_rejects_nonpositive scenarioDb0 zeroInst 1 (by decide)).1,
    (claim_validation_rejects_nonpositive scenarioDb0 zeroInst 1 (by decide)).2⟩

/-- Claim C9: `balance` is not among the serializer's writable fields (while
`name`, e.g., is), so a payload balance is ignored: a created account starts
at the model default 0.00 and an update keeps the stored balance. -/
theorem claim_balance_read_only :
    AccountSerializer.writable.contains "balance" = false ∧
    AccountSerializer.writable.contains "name" = true ∧
    (∀ p, (AccountSerializer.create p).balance = 0) ∧
    (∀ a p, (AccountSerializer.update a p).balance = a.balance) := by
  have hb : "balance" ∉ AccountSerializer.writable := by decide
  exact ⟨by decide, by decide, fun p => by simp [AccountSerializer.create, hb],
    fun a p => by simp [AccountSerializer.update, hb]⟩

/-- Claim C10: the summary endpoint is total — with no INCOME rows in the
filtered set total_income is 0 (not null), likewise for total_expenses, and
on the empty set every reported figure is 0. -/
theorem claim_summary_total_on_empty (ts : List Transaction) :
    (ts.filter (fun t => t.transaction_type == TxnType.INCOME) = [] →
      (TransactionViewSet.summary ts).total_income = 0) ∧
    (ts.filter (fun t => t.transaction_type == TxnType.EXPENSE) = [] →
      (TransactionViewSet.summary ts).total_expenses = 0) ∧
    TransactionViewSet.summary [] =
      { total_income := 0, total_expenses := 0, net_balance := 0, transaction_count := 0 } := by
  refine ⟨fun h => ?_, fun h => ?_, rfl⟩ <;>
    simp [TransactionViewSet.summary, h, aggregateSum, orZero]

/-- Witness for C10: a set with only a TRANSFER row has no INCOME rows and
reports total_income 0. -/
theorem claim_summary_total_on_empty_witness :
    [transferRow].filter (fun t => t.transaction_type == TxnType.INCOME) = [] ∧
    (TransactionViewSet.summary [transferRow]).total_income = 0 :=
  ⟨by decide, (claim_summary_total_on_empty [transferRow]).1 (by decide)⟩

end BIBackend
